import Mathlib

/-!
Verification development for the SFDX-Falcon recipe subsystem: the Appx
recipe engine (task compiler, engine initialization and validation, step
execution), the recipe model (top-level key validation, compile/execute
gating), and the command layer built on the hierarchical result model.

Definitions are shallow embeddings of the TypeScript source:
`AppxRecipeEngine` (modules/sfdx-falcon-recipe/engines/appx/index.ts),
`SfdxFalconRecipe` (modules/sfdx-falcon-recipe/index.ts), and
`SfdxFalconCommand` (modules/sfdx-falcon-command/index.ts).  The
`SfdxFalconResult` class (modules/sfdx-falcon-result) is not part of the
given sources; its operations are modelled from the specification and are
marked as such in their doc comments.
-/

/-- One recipe step: `AppxEngineStep` from engines/appx/index.ts.  The
`options` payload and the reserved `onSuccess`/`onError` hook names play no
role in the verified operations and are carried as opaque strings. -/
structure AppxEngineStep where
  stepName : String
  description : String
  action : String
  options : String
  deriving DecidableEq, Repr

/-- One recipe step group: `AppxEngineStepGroup` from engines/appx/index.ts.
The source field `alias` is rendered as `aliasName` because `alias` is a
reserved word in Lean. -/
structure AppxEngineStepGroup where
  stepGroupName : String
  aliasName : String
  description : String
  recipeSteps : List AppxEngineStep
  deriving DecidableEq, Repr

/-- `AppxRecipeEngine.skipAction`: an action is skipped during compile when
its name is on the engine context skipActions list. -/
def skipAction (skipActions : List String) (actionToCheck : String) : Bool :=
  skipActions.contains actionToCheck

/-- `AppxRecipeEngine.skipGroup`: a step group is skipped during compile when
its alias is on the engine context skipGroups list. -/
def skipGroup (skipGroups : List String) (groupToCheck : String) : Bool :=
  skipGroups.contains groupToCheck

/-- `AppxRecipeEngine.stepGroupHasActiveTasks`: false for a group with an
empty step list; otherwise true exactly when some step has an action that is
not on the skipActions list. -/
def stepGroupHasActiveTasks (skipActions : List String)
    (stepGroupToCheck : AppxEngineStepGroup) : Bool :=
  if stepGroupToCheck.recipeSteps.length < 1 then
    false
  else
    stepGroupToCheck.recipeSteps.any
      (fun step => skipAction skipActions step.action = false)

/-- `AppxRecipeEngine.compileSubTasks`: fails with ERROR_NO_STEPS when the
group has no steps; otherwise emits one sub task per step whose action is not
on the skipActions list, in the order the steps appear. -/
def compileSubTasks (skipActions : List String)
    (recipeStepGroup : AppxEngineStepGroup) :
    Except String (List AppxEngineStep) :=
  if recipeStepGroup.recipeSteps.length < 1 then
    .error ("ERROR_NO_STEPS: The Recipe Step Group "
            ++ recipeStepGroup.stepGroupName ++ " contains no Steps")
  else
    .ok (recipeStepGroup.recipeSteps.filter
          (fun recipeStep => skipAction skipActions recipeStep.action = false))

/-- `AppxRecipeEngine.compileParentTasks`: iterates the step groups and adds
a parent task for each group that is neither alias-skipped nor without active
tasks.  The sub tasks of each added group are compiled lazily by the task
closure (`compileSubTasks`); the plan here records the groups added, in
order. -/
def compileParentTasks (skipGroups skipActions : List String)
    (recipeStepGroups : List AppxEngineStepGroup) : List AppxEngineStepGroup :=
  recipeStepGroups.filter
    (fun recipeStepGroup =>
      skipGroup skipGroups recipeStepGroup.aliasName = false ∧
      stepGroupHasActiveTasks skipActions recipeStepGroup = true)

/-! ## The result model

The `SfdxFalconResult` class lives in modules/sfdx-falcon-result, which is
not among the given sources; every operation below whose doc comment starts
with `Modelled from the spec:` reconstructs the missing class from the
specification of the Result Node (create, addChild, terminal transitions,
wrapRejectedPromise, validate, and the throwing behaviour of error
bubbling). -/

/-- `SfdxFalconResultType` from modules/sfdx-falcon-result. -/
inductive SfdxFalconResultType where
  | COMMAND | RECIPE | ENGINE | ACTION | EXECUTOR | UNKNOWN
  deriving DecidableEq, Repr

/-- `SfdxFalconResultStatus` from modules/sfdx-falcon-result. -/
inductive SfdxFalconResultStatus where
  | INITIALIZED | RUNNING | SUCCESS | ERROR | FAILURE | WARNING
  deriving DecidableEq, Repr

/-- A plain error value (SfdxFalconError or a raw Error), identified by its
message. -/
structure FalconError where
  message : String
  deriving DecidableEq, Repr

/-- `SfdxFalconCommandType` from modules/sfdx-falcon-command/index.ts. -/
inductive SfdxFalconCommandType where
  | APPX_PACKAGE | APPX_DEMO | APPX_EXTENSION | UNKNOWN
  deriving DecidableEq, Repr

/-- `SfdxFalconCommandResultDetail` from modules/sfdx-falcon-command/index.ts.
The opaque commandFlags/commandArgs payloads are not modelled. -/
structure SfdxFalconCommandResultDetail where
  commandName : String
  commandType : SfdxFalconCommandType
  commandExitCode : Nat
  enabledDebuggers : List String
  deriving DecidableEq, Repr

/-- The type-specific detail payload attached to a result node.  Only the
command detail is inspected by any verified operation; the remaining
payloads are collapsed into opaque tags. -/
inductive ResultDetail where
  | noDetail
  | commandDetail (d : SfdxFalconCommandResultDetail)
  | engineDetail
  | otherDetail
  deriving DecidableEq, Repr

/-- Modelled from the spec: the ResultNode record of the missing
modules/sfdx-falcon-result — name, type, status, bubbling policy fixed at
construction, ordered children, optional error object, detail payload. -/
inductive SfdxFalconResult where
  | mk (name : String) (resultType : SfdxFalconResultType)
       (status : SfdxFalconResultStatus)
       (bubbleError : Bool) (bubbleFailure : Bool)
       (children : List SfdxFalconResult)
       (errObj : Option FalconError)
       (detail : ResultDetail)

def SfdxFalconResult.name : SfdxFalconResult → String
  | .mk n _ _ _ _ _ _ _ => n

def SfdxFalconResult.resultType : SfdxFalconResult → SfdxFalconResultType
  | .mk _ t _ _ _ _ _ _ => t

def SfdxFalconResult.status : SfdxFalconResult → SfdxFalconResultStatus
  | .mk _ _ s _ _ _ _ _ => s

def SfdxFalconResult.bubbleError : SfdxFalconResult → Bool
  | .mk _ _ _ be _ _ _ _ => be

def SfdxFalconResult.bubbleFailure : SfdxFalconResult → Bool
  | .mk _ _ _ _ bf _ _ _ => bf

def SfdxFalconResult.children : SfdxFalconResult → List SfdxFalconResult
  | .mk _ _ _ _ _ c _ _ => c

def SfdxFalconResult.errObj : SfdxFalconResult → Option FalconError
  | .mk _ _ _ _ _ _ e _ => e

def SfdxFalconResult.detail : SfdxFalconResult → ResultDetail
  | .mk _ _ _ _ _ _ _ d => d

def SfdxFalconResult.setStatus : SfdxFalconResult → SfdxFalconResultStatus → SfdxFalconResult
  | .mk n t _ be bf c e d, s => .mk n t s be bf c e d

def SfdxFalconResult.setErrObj : SfdxFalconResult → Option FalconError → SfdxFalconResult
  | .mk n t s be bf c _ d, e => .mk n t s be bf c e d

def SfdxFalconResult.setDetail : SfdxFalconResult → ResultDetail → SfdxFalconResult
  | .mk n t s be bf c e _, d => .mk n t s be bf c e d

def SfdxFalconResult.appendChild : SfdxFalconResult → SfdxFalconResult → SfdxFalconResult
  | .mk n t s be bf c e d, child => .mk n t s be bf (c ++ [child]) e d

/-- A value thrown to a caller (JavaScript can throw anything): either a
result node or a plain error value. -/
inductive Thrown where
  | result (r : SfdxFalconResult)
  | err (e : FalconError)

/-- Modelled from the spec: terminal statuses are SUCCESS, ERROR, FAILURE,
WARNING; no transition leaves a terminal state. -/
def SfdxFalconResultStatus.isTerminal : SfdxFalconResultStatus → Bool
  | .SUCCESS => true
  | .ERROR => true
  | .FAILURE => true
  | .WARNING => true
  | _ => false

/-- Modelled from the spec: `create(name, type, startNow/bubbleError/
bubbleFailure)` builds a node in INITIALIZED state, or RUNNING when startNow
is set, with the bubbling policy fixed at construction. -/
def SfdxFalconResult.create (name : String) (resultType : SfdxFalconResultType)
    (startNow bubbleError bubbleFailure : Bool) : SfdxFalconResult :=
  .mk name resultType (if startNow then .RUNNING else .INITIALIZED)
     bubbleError bubbleFailure [] none .noDetail

/-- Modelled from the spec: the `error(errObj)` terminal transition — fails
with DoubleFinalization when the node is already terminal, otherwise marks
the node ERROR and records the error object. -/
def SfdxFalconResult.error (r : SfdxFalconResult) (errObj : Option FalconError) :
    Except String SfdxFalconResult :=
  if r.status.isTerminal then .error "DoubleFinalization"
  else .ok ((r.setStatus .ERROR).setErrObj errObj)

/-- Modelled from the spec: the `success(detail)` terminal transition — fails
with DoubleFinalization when the node is already terminal, otherwise marks
the node SUCCESS and stores the detail. -/
def SfdxFalconResult.success (r : SfdxFalconResult) (detail : ResultDetail) :
    Except String SfdxFalconResult :=
  if r.status.isTerminal then .error "DoubleFinalization"
  else .ok ((r.setStatus .SUCCESS).setDetail detail)

/-- Modelled from the spec: `addChild(child)` appends the child
unconditionally; when the child is in ERROR status and this node bubbles
errors, the node immediately transitions to ERROR with the child errObj as
cause and the (updated) node itself is thrown to abort upward, and the same
happens for FAILURE under bubbleFailure; otherwise the child is recorded and
execution continues. -/
def SfdxFalconResult.addChild (parent child : SfdxFalconResult) :
    Except SfdxFalconResult SfdxFalconResult :=
  if child.status = .ERROR ∧ parent.bubbleError = true then
    .error (((parent.appendChild child).setStatus .ERROR).setErrObj child.errObj)
  else if child.status = .FAILURE ∧ parent.bubbleFailure = true then
    .error ((parent.appendChild child).setStatus .FAILURE)
  else
    .ok (parent.appendChild child)

/-- Modelled from the spec: `wrapRejectedPromise(value, defaultName,
defaultType)` returns an already-well-formed result unchanged, and wraps any
other rejection value in a fresh node of the default type in ERROR status
with the value as errObj. -/
def SfdxFalconResult.wrapRejectedPromise (value : Thrown) (defaultName : String)
    (defaultType : SfdxFalconResultType) : SfdxFalconResult :=
  match value with
  | .result r => r
  | .err e => .mk defaultName defaultType .ERROR false false [] (some e) .noDetail

/-- Modelled from the spec: `validate(candidate, expectedType,
expectedStatus)` is the trust-boundary predicate — true exactly when the
candidate is a result node of the expected type and status. -/
def SfdxFalconResult.validate (candidate : Thrown)
    (expectedType : SfdxFalconResultType)
    (expectedStatus : SfdxFalconResultStatus) : Bool :=
  match candidate with
  | .result r => r.resultType = expectedType ∧ r.status = expectedStatus
  | .err _ => false

/-- Modelled from the spec: the `throw(error)` method of a result — marks the
node ERROR with the given error object and throws the node itself, so the
caller always receives the result node rather than the raw error. -/
def SfdxFalconResult.throwWith (r : SfdxFalconResult) (e : FalconError) : Thrown :=
  .result ((r.setStatus .ERROR).setErrObj (some e))

/-! ## Target org and engine context -/

/-- A target org entry of a recipe (`TargetOrg` from the recipe types).  Each
field holds `some s` when the recipe supplies a value of the proper
JavaScript type and `none` when the key is absent or has another type; the
source key `alias` is rendered as `aliasName` because `alias` is a reserved
word in Lean. -/
structure TargetOrg where
  orgName : Option String
  aliasName : Option String
  description : Option String
  isScratchOrg : Option Bool
  scratchDefJson : Option String
  orgReqsJson : Option String
  deriving DecidableEq, Repr

/-- The check `typeof x !== 'string' || x === ''` applied throughout the
static validators: fails when the value is not a string or is the empty
string. -/
def strCheckFails : Option String → Bool
  | none => true
  | some s => s = ""

/-- `AppxRecipeEngine.validateTargetOrg`: the per-target-org checks run in
source order (orgName, alias, description, isScratchOrg, then scratchDefJson
when isScratchOrg is true and orgReqsJson when it is false), each raising an
ERROR_INVALID_RECIPE error. -/
def AppxRecipeEngine.validateTargetOrg (targetOrg : TargetOrg) : Except String Unit :=
  if strCheckFails targetOrg.orgName then
    .error ("ERROR_INVALID_RECIPE: A string value must be provided for the "
            ++ "orgName key in each targetOrg in your recipe.")
  else if strCheckFails targetOrg.aliasName then
    .error ("ERROR_INVALID_RECIPE: A string value must be provided for the "
            ++ "alias key in each targetOrg in your recipe.")
  else if strCheckFails targetOrg.description then
    .error ("ERROR_INVALID_RECIPE: A string value must be provided for the "
            ++ "description key in each targetOrg in your recipe.")
  else if targetOrg.isScratchOrg.isNone then
    .error ("ERROR_INVALID_RECIPE: A boolean value must be provided for the "
            ++ "isScratchOrg key in each targetOrg in your recipe.")
  else if targetOrg.isScratchOrg = some true ∧ strCheckFails targetOrg.scratchDefJson then
    .error ("ERROR_INVALID_RECIPE: If targetOrg.isScratchOrg is TRUE then a string "
            ++ "value must be provided for the scratchDefJson key in that targetOrg.")
  else if targetOrg.isScratchOrg = some false ∧ strCheckFails targetOrg.orgReqsJson then
    .error ("ERROR_INVALID_RECIPE: If targetOrg.isScratchOrg is FALSE then a string "
            ++ "value must be provided for the orgReqsJson key in that targetOrg.")
  else
    .ok ()

/-- `AppxEngineContext` from engines/appx/index.ts.  The skipGroups and
skipActions fields hold `some list` when the field is a JavaScript array and
`none` otherwise (the validator checks `Array.isArray`); targetOrg is `none`
when unset.  The devHubAlias, logLevel, projectContext and compileOptions
fields play no role in the verified operations and are omitted. -/
structure AppxEngineContext where
  executing : Bool
  initialized : Bool
  haltOnError : Bool
  skipGroups : Option (List String)
  skipActions : Option (List String)
  targetOrg : Option TargetOrg
  deriving DecidableEq, Repr

/-- An entry of the engine action registry.  The concrete executor bodies
are external collaborators; `run` maps the step options to the settlement of
`actionExecutor.execute(actionContext, recipeStep.options)`. -/
structure AppxEngineAction where
  actionName : String
  run : String → Except Thrown SfdxFalconResult

/-- The mutable state of an `AppxRecipeEngine` instance.  actionExecutorMap
holds `some entries` when the member is a Map (the validator checks
`instanceof Map`) and `none` when it was never assigned; the pre/post build
group lists are `some list` when the member is an array; listrTasks is
`none` until `compileAllTasks` stores the compiled plan;
engineResultDetailSet records that `initializeEngineResultDetail` ran. -/
structure AppxRecipeEngineState where
  actionExecutorMap : Option (List (String × AppxEngineAction))
  preBuildStepGroups : Option (List AppxEngineStepGroup)
  postBuildStepGroups : Option (List AppxEngineStepGroup)
  engineContext : AppxEngineContext
  listrTasks : Option (List AppxEngineStepGroup)
  engineResultDetailSet : Bool

/-- The first guard of `validateEngine`: `this.actionExecutorMap instanceof
Map && this.actionExecutorMap.size < 1` — it only fires when the map exists
and is empty, never when the member was never assigned. -/
def mapPresentButEmpty (s : AppxRecipeEngineState) : Bool :=
  match s.actionExecutorMap with
  | some m => m.length < 1
  | none => false

/-- The falsiness test `!targetOrg || !targetOrg.alias` of the engine
context target org. -/
def engineTargetOrgFalsy (s : AppxRecipeEngineState) : Bool :=
  match s.engineContext.targetOrg with
  | none => true
  | some t => strCheckFails t.aliasName

/-- `AppxRecipeEngine.validateEngine`: the six checks in source order; when
every check passes the engine context is marked initialized. -/
def AppxRecipeEngine.validateEngine (s : AppxRecipeEngineState) :
    Except String AppxRecipeEngineState :=
  if mapPresentButEmpty s then
    .error "ERROR_INVALID_ENGINE: actionExecutorMap is invalid or empty."
  else if s.preBuildStepGroups.isNone then
    .error "ERROR_INVALID_ENGINE: preBuildStepGroups is not an array."
  else if s.postBuildStepGroups.isNone then
    .error "ERROR_INVALID_ENGINE: postBuildStepGroups is not an array."
  else if engineTargetOrgFalsy s then
    .error "ERROR_INVALID_ENGINE_CONTEXT: engineContext.targetOrg is invalid or empty."
  else if s.engineContext.skipActions.isNone then
    .error "ERROR_INVALID_ENGINE_CONTEXT: engineContext.skipActions is invalid."
  else if s.engineContext.skipGroups.isNone then
    .error "ERROR_INVALID_ENGINE_CONTEXT: engineContext.skipGroups is invalid."
  else
    .ok { s with engineContext := { s.engineContext with initialized := true } }

/-- `AppxRecipeEngine.compileAllTasks`: requires the engine context to be
marked initialized, concatenates the pre-build groups, the recipe step
groups and the post-build groups, and stores the parent tasks compiled from
that complete list. -/
def AppxRecipeEngine.compileAllTasks (s : AppxRecipeEngineState)
    (recipeStepGroups : List AppxEngineStepGroup) :
    Except String AppxRecipeEngineState :=
  if s.engineContext.initialized ≠ true then
    .error ("ERROR_ENGINE_NOT_INITIALIZED: The engine must be fully initialized "
            ++ "before compiling all tasks.")
  else
    let completeRecipeStepGroups :=
      s.preBuildStepGroups.getD [] ++ recipeStepGroups ++ s.postBuildStepGroups.getD []
    let plan :=
      compileParentTasks (s.engineContext.skipGroups.getD [])
        (s.engineContext.skipActions.getD []) completeRecipeStepGroups
    .ok { s with listrTasks := some plan }

/-- `AppxRecipeEngine.initializeEngineResultDetail` (step eight of compile):
reads `this.actionExecutorMap.keys()` — a TypeError when the map was never
assigned — and stores the detail on the ENGINE result. -/
def AppxRecipeEngine.initializeEngineResultDetail (s : AppxRecipeEngineState) :
    Except String AppxRecipeEngineState :=
  match s.actionExecutorMap with
  | none => .error "TypeError: cannot read keys of undefined actionExecutorMap"
  | some _ => .ok { s with engineResultDetailSet := true }

/-- Labels for the eight initialization steps of `AppxRecipeEngine.compile`,
in the order the source awaits them. -/
inductive InitStep where
  | recipeEngineContext | targetOrg | preBuildStepGroups | postBuildStepGroups
  | skipActions | skipGroups | actionMap | engineResultDetail
  deriving DecidableEq, Repr

/-- One overridable initialization hook of a concrete engine: a state
transformer that either succeeds or throws, leaving the state it reached at
the point of the throw. -/
def EngineHook : Type :=
  AppxRecipeEngineState → Except (String × AppxRecipeEngineState) AppxRecipeEngineState

/-- The seven abstract initialization hooks a concrete engine implements
(step eight, `initializeEngineResultDetail`, is concrete in the base
class). -/
structure EngineHooks where
  initializeRecipeEngineContext : EngineHook
  initializeTargetOrg : EngineHook
  initializePreBuildStepGroups : EngineHook
  initializePostBuildStepGroups : EngineHook
  initializeSkipActions : EngineHook
  initializeSkipGroups : EngineHook
  initializeActionMap : EngineHook

/-- Runs one initialization step and records its label on the trace; on a
throw the state and the trace reached so far are preserved. -/
def runInitStep (label : InitStep) (hook : EngineHook)
    (acc : AppxRecipeEngineState × List InitStep) :
    Except (String × AppxRecipeEngineState × List InitStep)
      (AppxRecipeEngineState × List InitStep) :=
  match hook acc.1 with
  | .ok s => .ok (s, acc.2 ++ [label])
  | .error (m, s) => .error (m, s, acc.2)

/-- Runs a list of labeled initialization steps in order, stopping at the
first throw. -/
def runInitSteps :
    List (InitStep × EngineHook) →
    AppxRecipeEngineState × List InitStep →
    Except (String × AppxRecipeEngineState × List InitStep)
      (AppxRecipeEngineState × List InitStep)
  | [], acc => .ok acc
  | (label, hook) :: rest, acc =>
    match runInitStep label hook acc with
    | .ok acc' => runInitSteps rest acc'
    | .error e => .error e

/-- Step eight of `AppxRecipeEngine.compile`
(`initializeEngineResultDetail`, concrete in the base class) presented as a
hook; on a throw the state is left as it was. -/
def engineResultDetailHook : EngineHook := fun s =>
  match AppxRecipeEngine.initializeEngineResultDetail s with
  | .ok s' => .ok s'
  | .error m => .error (m, s)

/-- The eight initialization steps of `AppxRecipeEngine.compile`, paired
with their labels, in the order the source awaits them: context, target
org, pre-build groups, post-build groups, skip-actions, skip-groups, action
registry, engine result detail. -/
def engineInitSteps (hooks : EngineHooks) : List (InitStep × EngineHook) :=
  [(.recipeEngineContext, hooks.initializeRecipeEngineContext),
   (.targetOrg, hooks.initializeTargetOrg),
   (.preBuildStepGroups, hooks.initializePreBuildStepGroups),
   (.postBuildStepGroups, hooks.initializePostBuildStepGroups),
   (.skipActions, hooks.initializeSkipActions),
   (.skipGroups, hooks.initializeSkipGroups),
   (.actionMap, hooks.initializeActionMap),
   (.engineResultDetail, engineResultDetailHook)]

/-- The eight-step initialization sequence of `AppxRecipeEngine.compile`, in
source order, instrumented with a trace of the steps completed. -/
def runInitSequence (hooks : EngineHooks) (s0 : AppxRecipeEngineState) :
    Except (String × AppxRecipeEngineState × List InitStep)
      (AppxRecipeEngineState × List InitStep) :=
  runInitSteps (engineInitSteps hooks) (s0, [])

/-- The trace of a fully successful initialization sequence: the eight
steps in their fixed source order. -/
def fullInitTrace : List InitStep :=
  [.recipeEngineContext, .targetOrg, .preBuildStepGroups, .postBuildStepGroups,
   .skipActions, .skipGroups, .actionMap, .engineResultDetail]

/-- `AppxRecipeEngine.compile`: rejects an unvalidated recipe, runs the
eight initialization steps, then `validateEngine`, then `compileAllTasks`.
A failure carries the engine state and the trace reached at the throw. -/
def AppxRecipeEngine.compile (hooks : EngineHooks) (recipeValidated : Bool)
    (recipeStepGroups : List AppxEngineStepGroup) (s0 : AppxRecipeEngineState) :
    Except (String × AppxRecipeEngineState × List InitStep)
      (AppxRecipeEngineState × List InitStep) :=
  if recipeValidated ≠ true then
    .error ("ERROR_INVALID_RECIPE: Can not compile a recipe that has not been validated",
            s0, [])
  else
    match runInitSequence hooks s0 with
    | .error e => .error e
    | .ok (s1, trace) =>
      match AppxRecipeEngine.validateEngine s1 with
      | .error m => .error (m, s1, trace)
      | .ok s2 =>
        match AppxRecipeEngine.compileAllTasks s2 recipeStepGroups with
        | .error m => .error (m, s2, trace)
        | .ok s3 => .ok (s3, trace)

/-! ## Step execution and error funneling -/

/-- Lookup in the action registry (`this.actionExecutorMap.get(...)`). -/
def actionMapGet (actionExecutorMap : List (String × AppxEngineAction))
    (key : String) : Option AppxEngineAction :=
  match actionExecutorMap.find? (fun entry => entry.1 = key) with
  | some entry => some entry.2
  | none => none

/-- `AppxRecipeEngine.executeStep`: looks the step action up in the action
registry; when no executor is found it throws ERROR_UNKNOWN_ACTION naming
the action (the source message, trailing typo included), and only otherwise
runs the found action executor on the step options. -/
def AppxRecipeEngine.executeStep (actionExecutorMap : List (String × AppxEngineAction))
    (recipeType : String) (recipeStep : AppxEngineStep) :
    Except Thrown SfdxFalconResult :=
  match actionMapGet actionExecutorMap recipeStep.action with
  | none =>
    .error (.err ⟨"ERROR_UNKNOWN_ACTION: " ++ recipeStep.action
      ++ " is not recognized by the " ++ recipeType ++ " eninge"⟩)
  | some actionExecutor => actionExecutor.run recipeStep.options

/-- `AppxRecipeEngine.execute`: throws ERROR_RECIPE_NOT_COMPILED when
listrTasks is still null, before the pre-execution hook and before any step
runs; otherwise the concrete engine runs the compiled plan (abstracted as
`executeEngine`, which reports the names of the steps it ran). -/
def AppxRecipeEngine.execute (listrTasks : Option (List AppxEngineStepGroup))
    (executeEngine : List AppxEngineStepGroup → List String) :
    Except String (List String) :=
  match listrTasks with
  | none =>
    .error ("ERROR_RECIPE_NOT_COMPILED: AppxRecipeEngine.execute() called "
            ++ "before compiling a Recipe")
  | some tasks => .ok (executeEngine tasks)

/-- `AppxRecipeEngine.onError`: when the value rejected by the engine run is
not a result of type ENGINE in status ERROR, the ENGINE result throws with a
fresh ERROR_UNEXPECTED_LISTR_RESULT error; otherwise the ENGINE result
itself is thrown.  The returned value is what propagates to the caller. -/
def AppxRecipeEngine.onError (falconEngineResult : SfdxFalconResult)
    (listrError : Thrown) : Thrown :=
  if SfdxFalconResult.validate listrError .ENGINE .ERROR = false then
    falconEngineResult.throwWith
      ⟨"ERROR_UNEXPECTED_LISTR_RESULT: Engine " ++ falconEngineResult.name
        ++ " got an unexpected result from listr.run()"⟩
  else
    .result falconEngineResult

/-- `SfdxFalconRecipe.onError`: wraps the rejected engine value as an ENGINE
result, adds it as a child of the RECIPE result (which may itself throw the
updated RECIPE result, since the RECIPE result bubbles errors), and throws
the RECIPE result.  The returned value is what propagates to the caller. -/
def SfdxFalconRecipe.onError (falconRecipeResult : SfdxFalconResult)
    (engineError : Thrown) : Thrown :=
  let falconEngineResult :=
    SfdxFalconResult.wrapRejectedPromise engineError "EngineResult (REJECTED)" .ENGINE
  match falconRecipeResult.addChild falconEngineResult with
  | .error thrownParent => .result thrownParent
  | .ok updated => .result updated

/-! ## The recipe model -/

/-- `SfdxFalconRecipeJson` from modules/sfdx-falcon-recipe/index.ts.  String
fields hold `some s` for a supplied string; `options` records the
truthiness of the opaque options value; the two array fields are `none`
when absent (an empty array is truthy in JavaScript and is `some []`
here). -/
structure SfdxFalconRecipeJson where
  recipeName : Option String
  description : Option String
  recipeType : Option String
  recipeVersion : Option String
  schemaVersion : Option String
  options : Bool
  recipeStepGroups : Option (List AppxEngineStepGroup)
  handlers : Option (List String)
  deriving DecidableEq, Repr

/-- JavaScript truthiness of a possibly-missing string (`! x` fails for a
missing value and for the empty string). -/
def truthyStr : Option String → Bool
  | none => false
  | some s => s ≠ ""

/-- JavaScript truthiness of a possibly-missing object value. -/
def truthyObj {α : Type} : Option α → Bool
  | none => false
  | some _ => true

/-- The invalidConfigKeys array accumulated by
`SfdxFalconRecipe.validateTopLevelProperties`: one push per falsy top-level
key, in source order. -/
def invalidConfigKeys (r : SfdxFalconRecipeJson) : List String :=
  (if truthyStr r.recipeName then [] else ["recipeName"]) ++
  (if truthyStr r.description then [] else ["description"]) ++
  (if truthyStr r.recipeType then [] else ["recipeType"]) ++
  (if truthyStr r.recipeVersion then [] else ["recipeVersion"]) ++
  (if truthyStr r.schemaVersion then [] else ["schemaVersion"]) ++
  (if r.options then [] else ["options"]) ++
  (if truthyObj r.recipeStepGroups then [] else ["recipeStepGroups"]) ++
  (if truthyObj r.handlers then [] else ["handlers"])

/-- `SfdxFalconRecipe.validateTopLevelProperties`: checks the eight required
top-level keys in one pass and, when any is missing or falsy, throws a
single ERROR_INVALID_RECIPE error naming every collected key (the JavaScript
array renders as its comma-joined elements). -/
def SfdxFalconRecipe.validateTopLevelProperties (r : SfdxFalconRecipeJson) :
    Except String Unit :=
  let keys := invalidConfigKeys r
  if keys.length > 0 then
    .error ("ERROR_INVALID_RECIPE: The selected recipe has missing/invalid settings ("
            ++ String.intercalate "," keys ++ ").")
  else
    .ok ()

/-- `SfdxFalconRecipe.validate`: top-level validation first, then the
type-specific validation of the engine registered for the recipe type.  The
recipeType switch and the concrete engine validator (AppxDemoConfigEngine,
outside the given sources) are abstracted into `engineValidation`. -/
def SfdxFalconRecipe.validate
    (engineValidation : SfdxFalconRecipeJson → Except String Unit)
    (r : SfdxFalconRecipeJson) : Except String Unit :=
  match SfdxFalconRecipe.validateTopLevelProperties r with
  | .error m => .error m
  | .ok _ => engineValidation r

/-- `SfdxFalconRecipe.read`: the recipe file is loaded by the external
config-loading collaborator (out of scope, starting point is the parsed
object); the parsed recipe is validated and only then returned with
validated set. -/
def SfdxFalconRecipe.read
    (engineValidation : SfdxFalconRecipeJson → Except String Unit)
    (recipe : SfdxFalconRecipeJson) : Except String SfdxFalconRecipeJson :=
  match SfdxFalconRecipe.validate engineValidation recipe with
  | .error m => .error m
  | .ok _ => .ok recipe

/-- `SfdxFalconRecipe.execute`: throws ERROR_RECIPE_NOT_COMPILED when the
compiled flag is not true, before delegating anything to the recipe engine
(abstracted as `engineRun`, which reports the names of the steps it ran). -/
def SfdxFalconRecipe.execute (compiled : Bool)
    (engineRun : Unit → List String) : Except String (List String) :=
  if compiled ≠ true then
    .error ("ERROR_RECIPE_NOT_COMPILED: The compile() method must be called "
            ++ "before you can execute this recipe")
  else
    .ok (engineRun ())

/-! ## The command layer -/

/-- The state of an `SfdxFalconCommand` relevant to result handling: the
command name, the COMMAND result, and its detail record.  Flag parsing and
path validation are external collaborators. -/
structure SfdxFalconCommandState where
  falconCommandName : String
  falconCommandResult : SfdxFalconResult
  falconCommandResultDetail : SfdxFalconCommandResultDetail

/-- `SfdxFalconCommand.sfdxFalconCommandInit`: builds the COMMAND result
with startNow true and bubbleError and bubbleFailure both false (errors are
handled by onError, failures by onSuccess — no bubbling), and the detail
record with exit code 0. -/
def sfdxFalconCommandInit (commandName : String)
    (commandType : SfdxFalconCommandType)
    (enabledDebuggers : List String) : SfdxFalconCommandState :=
  { falconCommandName := commandName
    falconCommandResult := SfdxFalconResult.create commandName .COMMAND true false false
    falconCommandResultDetail :=
      { commandName := commandName
        commandType := commandType
        commandExitCode := 0
        enabledDebuggers := enabledDebuggers } }

/-- `SfdxFalconCommand.onError`: wraps the rejected value as an ERROR result,
sets the command exit code detail to 1 and stores the detail on the COMMAND
result, adds the wrapped result as a child, and manually marks the COMMAND
result ERROR (since bubbleError is false).  An error is returned only if
addChild bubbled or the COMMAND result was already finalized. -/
def SfdxFalconCommand.onError (cs : SfdxFalconCommandState)
    (rejectedValue : Thrown) : Except String SfdxFalconCommandState :=
  let rejectedResult :=
    SfdxFalconResult.wrapRejectedPromise rejectedValue "Promise Returned (REJECTED)" .UNKNOWN
  let detail := { cs.falconCommandResultDetail with commandExitCode := 1 }
  let r1 := cs.falconCommandResult.setDetail (.commandDetail detail)
  match r1.addChild rejectedResult with
  | .error _ => .error "BUBBLED_FROM_ADDCHILD"
  | .ok r2 =>
    match r2.error rejectedResult.errObj with
    | .error m => .error m
    | .ok r3 =>
      .ok { cs with falconCommandResult := r3, falconCommandResultDetail := detail }

/-- `SfdxFalconCommand.onSuccess`: adds the settled result as a child of the
COMMAND result and marks the COMMAND result SUCCESS with the command detail.
An error is returned only if addChild bubbled or the COMMAND result was
already finalized. -/
def SfdxFalconCommand.onSuccess (cs : SfdxFalconCommandState)
    (sfdxFalconResult : SfdxFalconResult) : Except String SfdxFalconCommandState :=
  match cs.falconCommandResult.addChild sfdxFalconResult with
  | .error _ => .error "BUBBLED_FROM_ADDCHILD"
  | .ok r2 =>
    match r2.success (.commandDetail cs.falconCommandResultDetail) with
    | .error m => .error m
    | .ok r3 => .ok { cs with falconCommandResult := r3 }

/-! ## Sample data used by concrete evaluations -/

/-- A sample target org accepted by every validator. -/
def sampleTargetOrg : TargetOrg :=
  { orgName := some "Sample Org"
    aliasName := some "sample-org"
    description := some "A sample demo org"
    isScratchOrg := some true
    scratchDefJson := some "scratch-def.json"
    orgReqsJson := none }

/-- A sample action registry entry whose executor resolves with a fixed
ACTION result. -/
def sampleAction : AppxEngineAction :=
  { actionName := "deploy-metadata"
    run := fun _ =>
      .ok (SfdxFalconResult.create "deploy-metadata" .ACTION true true true) }

/-- An engine state ready for validation: a non-empty action registry, empty
pre/post build group arrays, a target org with an alias, and array skip
lists. -/
def readyEngineState : AppxRecipeEngineState :=
  { actionExecutorMap := some [("deploy-metadata", sampleAction)]
    preBuildStepGroups := some []
    postBuildStepGroups := some []
    engineContext :=
      { executing := false
        initialized := false
        haltOnError := false
        skipGroups := some []
        skipActions := some []
        targetOrg := some sampleTargetOrg }
    listrTasks := none
    engineResultDetailSet := false }

/-- Concrete initialization hooks that leave the engine state unchanged
(the state is already fully set up). -/
def idHooks : EngineHooks :=
  { initializeRecipeEngineContext := fun s => .ok s
    initializeTargetOrg := fun s => .ok s
    initializePreBuildStepGroups := fun s => .ok s
    initializePostBuildStepGroups := fun s => .ok s
    initializeSkipActions := fun s => .ok s
    initializeSkipGroups := fun s => .ok s
    initializeActionMap := fun s => .ok s }

/-- A step group with an empty steps list. -/
def emptyStepsGroup : AppxEngineStepGroup :=
  { stepGroupName := "Empty Group"
    aliasName := "empty-group"
    description := "A group with no steps"
    recipeSteps := [] }

/-- The engine state produced by a successful compile of `readyEngineState`
with `idHooks` on a recipe whose plan compiles to no parent tasks. -/
def compiledReadyState : AppxRecipeEngineState :=
  { readyEngineState with
      engineContext := { readyEngineState.engineContext with initialized := true }
      listrTasks := some []
      engineResultDetailSet := true }

/-- An engine state whose action registry member was never assigned (it is
undefined, hence not a Map), while every other validated member is well
formed. -/
def absentRegistryState : AppxRecipeEngineState :=
  { readyEngineState with actionExecutorMap := none }

/-- A recipe object that is missing its options and handlers keys while
every other top-level key is well formed. -/
def recipeMissingOptionsAndHandlers : SfdxFalconRecipeJson :=
  { recipeName := some "Build ADK Demo Org"
    description := some "ADK Demo"
    recipeType := some "appx:demo-recipe"
    recipeVersion := some "1.0.0"
    schemaVersion := some "1.0.0"
    options := false
    recipeStepGroups := some []
    handlers := none }

/-- An engine-specific validator that accepts everything (used where the
engine validation is irrelevant to the property under test). -/
def acceptAllEngineValidation : SfdxFalconRecipeJson → Except String Unit :=
  fun _ => .ok ()

/-- A target org entry with every key missing. -/
def emptyTargetOrg : TargetOrg :=
  { orgName := none, aliasName := none, description := none,
    isScratchOrg := none, scratchDefJson := none, orgReqsJson := none }

/-! ## Basic lemmas about the result model -/

@[simp] theorem SfdxFalconResult.name_setStatus (r : SfdxFalconResult)
    (s : SfdxFalconResultStatus) : (r.setStatus s).name = r.name := by
  cases r; rfl

@[simp] theorem SfdxFalconResult.resultType_setStatus (r : SfdxFalconResult)
    (s : SfdxFalconResultStatus) : (r.setStatus s).resultType = r.resultType := by
  cases r; rfl

@[simp] theorem SfdxFalconResult.status_setStatus (r : SfdxFalconResult)
    (s : SfdxFalconResultStatus) : (r.setStatus s).status = s := by
  cases r; rfl

@[simp] theorem SfdxFalconResult.errObj_setStatus (r : SfdxFalconResult)
    (s : SfdxFalconResultStatus) : (r.setStatus s).errObj = r.errObj := by
  cases r; rfl

@[simp] theorem SfdxFalconResult.name_setErrObj (r : SfdxFalconResult)
    (e : Option FalconError) : (r.setErrObj e).name = r.name := by
  cases r; rfl

@[simp] theorem SfdxFalconResult.resultType_setErrObj (r : SfdxFalconResult)
    (e : Option FalconError) : (r.setErrObj e).resultType = r.resultType := by
  cases r; rfl

@[simp] theorem SfdxFalconResult.status_setErrObj (r : SfdxFalconResult)
    (e : Option FalconError) : (r.setErrObj e).status = r.status := by
  cases r; rfl

@[simp] theorem SfdxFalconResult.errObj_setErrObj (r : SfdxFalconResult)
    (e : Option FalconError) : (r.setErrObj e).errObj = e := by
  cases r; rfl

@[simp] theorem SfdxFalconResult.name_setDetail (r : SfdxFalconResult)
    (d : ResultDetail) : (r.setDetail d).name = r.name := by
  cases r; rfl

@[simp] theorem SfdxFalconResult.resultType_setDetail (r : SfdxFalconResult)
    (d : ResultDetail) : (r.setDetail d).resultType = r.resultType := by
  cases r; rfl

@[simp] theorem SfdxFalconResult.status_setDetail (r : SfdxFalconResult)
    (d : ResultDetail) : (r.setDetail d).status = r.status := by
  cases r; rfl

@[simp] theorem SfdxFalconResult.errObj_setDetail (r : SfdxFalconResult)
    (d : ResultDetail) : (r.setDetail d).errObj = r.errObj := by
  cases r; rfl

@[simp] theorem SfdxFalconResult.bubbleError_setDetail (r : SfdxFalconResult)
    (d : ResultDetail) : (r.setDetail d).bubbleError = r.bubbleError := by
  cases r; rfl

@[simp] theorem SfdxFalconResult.bubbleFailure_setDetail (r : SfdxFalconResult)
    (d : ResultDetail) : (r.setDetail d).bubbleFailure = r.bubbleFailure := by
  cases r; rfl

@[simp] theorem SfdxFalconResult.name_appendChild (r c : SfdxFalconResult) :
    (r.appendChild c).name = r.name := by
  cases r; rfl

@[simp] theorem SfdxFalconResult.resultType_appendChild (r c : SfdxFalconResult) :
    (r.appendChild c).resultType = r.resultType := by
  cases r; rfl

@[simp] theorem SfdxFalconResult.status_appendChild (r c : SfdxFalconResult) :
    (r.appendChild c).status = r.status := by
  cases r; rfl

@[simp] theorem SfdxFalconResult.errObj_appendChild (r c : SfdxFalconResult) :
    (r.appendChild c).errObj = r.errObj := by
  cases r; rfl

@[simp] theorem SfdxFalconResult.children_appendChild (r c : SfdxFalconResult) :
    (r.appendChild c).children = r.children ++ [c] := by
  cases r; rfl

@[simp] theorem SfdxFalconResult.bubbleError_create (n : String)
    (t : SfdxFalconResultType) (sn be bf : Bool) :
    (SfdxFalconResult.create n t sn be bf).bubbleError = be := rfl

@[simp] theorem SfdxFalconResult.bubbleFailure_create (n : String)
    (t : SfdxFalconResultType) (sn be bf : Bool) :
    (SfdxFalconResult.create n t sn be bf).bubbleFailure = bf := rfl

@[simp] theorem SfdxFalconResult.resultType_create (n : String)
    (t : SfdxFalconResultType) (sn be bf : Bool) :
    (SfdxFalconResult.create n t sn be bf).resultType = t := rfl

@[simp] theorem SfdxFalconResult.name_create (n : String)
    (t : SfdxFalconResultType) (sn be bf : Bool) :
    (SfdxFalconResult.create n t sn be bf).name = n := rfl

@[simp] theorem SfdxFalconResult.status_create_startNow (n : String)
    (t : SfdxFalconResultType) (be bf : Bool) :
    (SfdxFalconResult.create n t true be bf).status = .RUNNING := rfl

/-! ## Lemmas about the task compiler -/

theorem stepGroupHasActiveTasks_iff (skipActions : List String)
    (g : AppxEngineStepGroup) :
    stepGroupHasActiveTasks skipActions g = true ↔
      ∃ s ∈ g.recipeSteps, skipAction skipActions s.action = false := by
  unfold stepGroupHasActiveTasks
  by_cases h : g.recipeSteps.length < 1
  · have hnil : g.recipeSteps = [] := List.length_eq_zero.mp (by omega)
    simp [h, hnil]
  · simp [h, List.any_eq_true]

theorem mem_compileParentTasks (skipGroups skipActions : List String)
    (recipeStepGroups : List AppxEngineStepGroup) (g : AppxEngineStepGroup) :
    g ∈ compileParentTasks skipGroups skipActions recipeStepGroups ↔
      g ∈ recipeStepGroups ∧ skipGroup skipGroups g.aliasName = false ∧
        stepGroupHasActiveTasks skipActions g = true := by
  unfold compileParentTasks
  simp [List.mem_filter]

/-- C1: for every compiled plan, a step group appears in the plan iff its
alias is not in skipGroups and it contains at least one step whose action is
not in skipActions; and for every group that does appear, the sub tasks
compiled for it are exactly its steps whose action is not in skipActions,
in order. -/
theorem c1_plan_membership_and_emitted_tasks
    (skipGroups skipActions : List String)
    (recipeStepGroups : List AppxEngineStepGroup)
    (g : AppxEngineStepGroup) (hg : g ∈ recipeStepGroups) :
    (g ∈ compileParentTasks skipGroups skipActions recipeStepGroups ↔
      (skipGroup skipGroups g.aliasName = false ∧
       ∃ s ∈ g.recipeSteps, skipAction skipActions s.action = false)) ∧
    (g ∈ compileParentTasks skipGroups skipActions recipeStepGroups →
      compileSubTasks skipActions g =
        .ok (g.recipeSteps.filter
              (fun s => skipAction skipActions s.action = false))) := by
  constructor
  · rw [mem_compileParentTasks]
    simp [hg, stepGroupHasActiveTasks_iff]
  · intro hmem
    rw [mem_compileParentTasks] at hmem
    obtain ⟨-, -, hact⟩ := hmem
    rw [stepGroupHasActiveTasks_iff] at hact
    obtain ⟨st, hst, -⟩ := hact
    have hlen : ¬ (g.recipeSteps.length < 1) := by
      cases hr : g.recipeSteps with
      | nil => rw [hr] at hst; cases hst
      | cons a l => simp [hr]
    unfold compileSubTasks
    simp [hlen]

/-- C1 witness: on the spec example — groups A with step s1 and B with step
s2, skipGroups B — the compiled plan holds exactly group A and its emitted
tasks are exactly s1. -/
theorem c1_witness :
    (⟨"Group A", "A", "d", [⟨"s1", "d", "act1", ""⟩]⟩ ∈
       compileParentTasks ["B"] []
         [⟨"Group A", "A", "d", [⟨"s1", "d", "act1", ""⟩]⟩,
          ⟨"Group B", "B", "d", [⟨"s2", "d", "act2", ""⟩]⟩] ↔
      (skipGroup ["B"] "A" = false ∧
       ∃ s ∈ [(⟨"s1", "d", "act1", ""⟩ : AppxEngineStep)],
         skipAction [] s.action = false)) ∧
    (⟨"Group A", "A", "d", [⟨"s1", "d", "act1", ""⟩]⟩ ∈
       compileParentTasks ["B"] []
         [⟨"Group A", "A", "d", [⟨"s1", "d", "act1", ""⟩]⟩,
          ⟨"Group B", "B", "d", [⟨"s2", "d", "act2", ""⟩]⟩] →
      compileSubTasks [] ⟨"Group A", "A", "d", [⟨"s1", "d", "act1", ""⟩]⟩ =
        .ok [⟨"s1", "d", "act1", ""⟩]) :=
  c1_plan_membership_and_emitted_tasks ["B"] []
    [⟨"Group A", "A", "d", [⟨"s1", "d", "act1", ""⟩]⟩,
     ⟨"Group B", "B", "d", [⟨"s2", "d", "act2", ""⟩]⟩]
    ⟨"Group A", "A", "d", [⟨"s1", "d", "act1", ""⟩]⟩ (by decide)

/-- C2 counterexample: compiling a recipe that contains a step group with an
empty steps list does not fail — the whole engine compile succeeds, the
empty group is dropped from the plan (the stored plan is empty), and no
ERROR_NO_STEPS error is raised, contradicting the claim that such a recipe
always fails compilation with an InvalidRecipe (NoSteps) error. -/
theorem c2_counterexample :
    AppxRecipeEngine.compile idHooks true [emptyStepsGroup] readyEngineState =
      .ok (compiledReadyState, fullInitTrace) := by
  rfl

/-- C2 (amended): a step group with an empty steps list is silently dropped
at compile time — it never appears in the parent task plan, and
`compileAllTasks` on an initialized engine always succeeds — while the
ERROR_NO_STEPS (InvalidRecipe) error is raised only when `compileSubTasks`
is invoked directly on such a group, which the compile path never does. -/
theorem c2_empty_group_dropped (skipGroups skipActions : List String)
    (recipeStepGroups : List AppxEngineStepGroup)
    (g : AppxEngineStepGroup) (hempty : g.recipeSteps = []) :
    g ∉ compileParentTasks skipGroups skipActions recipeStepGroups ∧
    compileSubTasks skipActions g =
      .error ("ERROR_NO_STEPS: The Recipe Step Group " ++ g.stepGroupName
              ++ " contains no Steps") ∧
    ∀ s : AppxRecipeEngineState, s.engineContext.initialized = true →
      (AppxRecipeEngine.compileAllTasks s recipeStepGroups).isOk = true := by
  refine ⟨?_, ?_, ?_⟩
  · rw [mem_compileParentTasks]
    rintro ⟨-, -, hact⟩
    rw [stepGroupHasActiveTasks_iff] at hact
    obtain ⟨st, hst, -⟩ := hact
    rw [hempty] at hst
    cases hst
  · unfold compileSubTasks
    simp [hempty]
  · intro s hs
    unfold AppxRecipeEngine.compileAllTasks
    simp [hs, Except.isOk, Except.toBool]

/-- C2 witness for the amended claim: the concrete empty group is dropped
from the plan and `compileAllTasks` on the initialized sample engine state
succeeds for a recipe holding only that group. -/
theorem c2_amended_witness :
    emptyStepsGroup.recipeSteps = [] ∧
    emptyStepsGroup ∉ compileParentTasks [] [] [emptyStepsGroup] ∧
    (AppxRecipeEngine.compileAllTasks compiledReadyState [emptyStepsGroup]).isOk = true :=
  ⟨rfl,
   (c2_empty_group_dropped [] [] [emptyStepsGroup] emptyStepsGroup rfl).1,
   (c2_empty_group_dropped [] [] [emptyStepsGroup] emptyStepsGroup rfl).2.2
     compiledReadyState rfl⟩

/-! ## Lemmas about engine initialization -/

theorem runInitSteps_ok_trace (steps : List (InitStep × EngineHook))
    (acc out : AppxRecipeEngineState × List InitStep)
    (h : runInitSteps steps acc = .ok out) :
    out.2 = acc.2 ++ steps.map Prod.fst := by
  induction steps generalizing acc with
  | nil =>
    simp only [runInitSteps] at h
    cases h
    simp
  | cons p rest ih =>
    obtain ⟨label, hook⟩ := p
    simp only [runInitSteps] at h
    cases hh : runInitStep label hook acc with
    | ok acc' =>
      rw [hh] at h
      have htr : acc'.2 = acc.2 ++ [label] := by
        unfold runInitStep at hh
        cases hhook : hook acc.1 with
        | ok s => rw [hhook] at hh; cases hh; rfl
        | error e =>
          obtain ⟨m, s⟩ := e
          rw [hhook] at hh
          cases hh
      have := ih acc' h
      rw [this, htr]
      simp
    | error e =>
      rw [hh] at h
      cases h

theorem runInitSequence_ok_trace (hooks : EngineHooks)
    (s0 : AppxRecipeEngineState) (out : AppxRecipeEngineState × List InitStep)
    (h : runInitSequence hooks s0 = .ok out) : out.2 = fullInitTrace := by
  have := runInitSteps_ok_trace (engineInitSteps hooks) (s0, []) out h
  simpa [engineInitSteps, fullInitTrace] using this

theorem validateEngine_ok (s s' : AppxRecipeEngineState)
    (h : AppxRecipeEngine.validateEngine s = .ok s') :
    s' = { s with engineContext := { s.engineContext with initialized := true } } := by
  unfold AppxRecipeEngine.validateEngine at h
  split_ifs at h
  cases h
  rfl

theorem compileAllTasks_ok (s s' : AppxRecipeEngineState)
    (recipeStepGroups : List AppxEngineStepGroup)
    (h : AppxRecipeEngine.compileAllTasks s recipeStepGroups = .ok s') :
    s'.engineContext = s.engineContext ∧ s'.listrTasks.isSome = true := by
  unfold AppxRecipeEngine.compileAllTasks at h
  split_ifs at h
  cases h
  exact ⟨rfl, rfl⟩

/-- C3: for every engine compile of a validated recipe, a successful compile
carries the trace of the eight initialization steps in their fixed order
(context, target org, pre-build groups, post-build groups, skip-actions,
skip-groups, action registry, engine result detail), its final state is
marked initialized with a compiled task plan, and it factors through a
successful `validateEngine`; and whenever any `validateEngine` check fails
after the initialization steps, compile fails with the state exactly as the
hooks left it — initialized is not set and no tasks are compiled beyond what
the hooks themselves produced. -/
theorem c3_compile_order_and_gating (hooks : EngineHooks)
    (recipeStepGroups : List AppxEngineStepGroup) (s0 : AppxRecipeEngineState) :
    (∀ s tr, AppxRecipeEngine.compile hooks true recipeStepGroups s0 = .ok (s, tr) →
      tr = fullInitTrace ∧
      s.engineContext.initialized = true ∧
      s.listrTasks.isSome = true ∧
      ∃ s1 tr1 s2,
        runInitSequence hooks s0 = .ok (s1, tr1) ∧
        AppxRecipeEngine.validateEngine s1 = .ok s2 ∧
        AppxRecipeEngine.compileAllTasks s2 recipeStepGroups = .ok s) ∧
    (∀ s1 tr1 m, runInitSequence hooks s0 = .ok (s1, tr1) →
      AppxRecipeEngine.validateEngine s1 = .error m →
      AppxRecipeEngine.compile hooks true recipeStepGroups s0 = .error (m, s1, tr1)) := by
  constructor
  · intro s tr h
    unfold AppxRecipeEngine.compile at h
    simp only [ne_eq, not_true_eq_false, ite_false] at h
    cases hseq : runInitSequence hooks s0 with
    | error e =>
      rw [hseq] at h
      cases h
    | ok p =>
      obtain ⟨s1, tr1⟩ := p
      rw [hseq] at h
      dsimp only at h
      cases hval : AppxRecipeEngine.validateEngine s1 with
      | error m =>
        rw [hval] at h
        cases h
      | ok s2 =>
        rw [hval] at h
        dsimp only at h
        cases hct : AppxRecipeEngine.compileAllTasks s2 recipeStepGroups with
        | error m =>
          rw [hct] at h
          cases h
        | ok s3 =>
          rw [hct] at h
          cases h
          have htr := runInitSequence_ok_trace hooks s0 (s1, tr) hseq
          have hs2 := validateEngine_ok s1 s2 hval
          have hs3 := compileAllTasks_ok s2 s recipeStepGroups hct
          refine ⟨htr, ?_, hs3.2, s1, tr, s2, rfl, hval, hct⟩
          rw [hs3.1, hs2]
  · intro s1 tr1 m hseq hval
    unfold AppxRecipeEngine.compile
    simp only [ne_eq, not_true_eq_false, ite_false]
    rw [hseq]
    dsimp only
    rw [hval]

/-- C3 witness: the concrete compile of the ready sample state with identity
hooks succeeds, and the theorem applied to it confirms the fixed trace, the
initialized flag and the compiled plan. -/
theorem c3_witness :
    AppxRecipeEngine.compile idHooks true [] readyEngineState =
      .ok (compiledReadyState, fullInitTrace) ∧
    compiledReadyState.engineContext.initialized = true ∧
    compiledReadyState.listrTasks.isSome = true :=
  ⟨rfl,
   ((c3_compile_order_and_gating idHooks [] readyEngineState).1
      compiledReadyState fullInitTrace rfl).2.1,
   ((c3_compile_order_and_gating idHooks [] readyEngineState).1
      compiledReadyState fullInitTrace rfl).2.2.1⟩

/-! ## Lemmas about addChild -/

theorem addChild_ok_projections (parent child p' : SfdxFalconResult)
    (h : SfdxFalconResult.addChild parent child = .ok p') :
    p' = parent.appendChild child := by
  unfold SfdxFalconResult.addChild at h
  split_ifs at h
  cases h
  rfl

theorem addChild_error_projections (parent child p' : SfdxFalconResult)
    (h : SfdxFalconResult.addChild parent child = .error p') :
    p'.name = parent.name ∧ p'.resultType = parent.resultType := by
  unfold SfdxFalconResult.addChild at h
  split_ifs at h <;> cases h <;> simp

theorem addChild_no_bubble (parent child : SfdxFalconResult)
    (hbe : parent.bubbleError = false) (hbf : parent.bubbleFailure = false) :
    SfdxFalconResult.addChild parent child = .ok (parent.appendChild child) := by
  unfold SfdxFalconResult.addChild
  rw [if_neg (by simp [hbe]), if_neg (by simp [hbf])]

/-- C4: whenever execution fails, the value thrown to the caller is the
corresponding result node and never the raw rejection cause.  The engine
error path always throws the ENGINE result node (with the engine result
name); when the propagated value does not validate as an ENGINE result in
ERROR status it is first marked ERROR with the synthetic
ERROR_UNEXPECTED_LISTR_RESULT error, and when the propagated value is the
engine result itself the thrown node is in ERROR status.  The recipe error
path always throws the RECIPE result node. -/
theorem c4_failure_throws_result_nodes
    (falconEngineResult : SfdxFalconResult) (listrError : Thrown)
    (falconRecipeResult : SfdxFalconResult) (engineError : Thrown)
    (hEng : falconEngineResult.resultType = .ENGINE)
    (hRec : falconRecipeResult.resultType = .RECIPE) :
    (∃ r, AppxRecipeEngine.onError falconEngineResult listrError = .result r ∧
      r.resultType = .ENGINE ∧ r.name = falconEngineResult.name ∧
      (SfdxFalconResult.validate listrError .ENGINE .ERROR = false →
        r.status = .ERROR) ∧
      (listrError = .result falconEngineResult → r.status = .ERROR)) ∧
    (∃ r, SfdxFalconRecipe.onError falconRecipeResult engineError = .result r ∧
      r.resultType = .RECIPE ∧ r.name = falconRecipeResult.name) := by
  constructor
  · unfold AppxRecipeEngine.onError
    by_cases hv : SfdxFalconResult.validate listrError .ENGINE .ERROR = false
    · rw [if_pos hv]
      refine ⟨_, rfl, ?_, ?_, ?_, ?_⟩
      · simp [SfdxFalconResult.throwWith, hEng]
      · simp [SfdxFalconResult.throwWith]
      · intro _
        simp [SfdxFalconResult.throwWith]
      · intro _
        simp [SfdxFalconResult.throwWith]
    · rw [if_neg hv]
      have hv' : SfdxFalconResult.validate listrError .ENGINE .ERROR = true := by
        cases hb : SfdxFalconResult.validate listrError .ENGINE .ERROR
        · exact absurd hb hv
        · rfl
      refine ⟨falconEngineResult, rfl, hEng, rfl, ?_, ?_⟩
      · intro hc
        exact absurd hc hv
      · intro heq
        rw [heq] at hv'
        unfold SfdxFalconResult.validate at hv'
        simp only [decide_eq_true_eq] at hv'
        exact hv'.2
  · cases haddc : falconRecipeResult.addChild
        (SfdxFalconResult.wrapRejectedPromise engineError
          "EngineResult (REJECTED)" .ENGINE) with
    | ok u =>
      have hu := addChild_ok_projections _ _ _ haddc
      unfold SfdxFalconRecipe.onError
      dsimp only
      rw [haddc]
      exact ⟨u, rfl, by simp [hu, hRec], by simp [hu]⟩
    | error u =>
      have hu := addChild_error_projections _ _ _ haddc
      unfold SfdxFalconRecipe.onError
      dsimp only
      rw [haddc]
      exact ⟨u, rfl, by rw [hu.2, hRec], by rw [hu.1]⟩

/-- C4 witness: at a concrete ENGINE result and a raw rejection value (and a
concrete RECIPE result), both error paths throw the corresponding result
node. -/
theorem c4_witness :
    (∃ r, AppxRecipeEngine.onError
        (SfdxFalconResult.create "ENGINE:demo" .ENGINE false true true)
        (.err ⟨"boom"⟩) = .result r ∧
      r.resultType = .ENGINE ∧
      r.name = (SfdxFalconResult.create "ENGINE:demo" .ENGINE false true true).name ∧
      (SfdxFalconResult.validate (.err ⟨"boom"⟩) .ENGINE .ERROR = false →
        r.status = .ERROR) ∧
      (Thrown.err ⟨"boom"⟩ =
          .result (SfdxFalconResult.create "ENGINE:demo" .ENGINE false true true) →
        r.status = .ERROR)) ∧
    (∃ r, SfdxFalconRecipe.onError
        (SfdxFalconResult.create "demo-recipe" .RECIPE false true true)
        (.err ⟨"boom"⟩) = .result r ∧
      r.resultType = .RECIPE ∧
      r.name = (SfdxFalconResult.create "demo-recipe" .RECIPE false true true).name) :=
  c4_failure_throws_result_nodes
    (SfdxFalconResult.create "ENGINE:demo" .ENGINE false true true) (.err ⟨"boom"⟩)
    (SfdxFalconResult.create "demo-recipe" .RECIPE false true true) (.err ⟨"boom"⟩)
    rfl rfl

/-! ## Lemmas about recipe validation -/

theorem if_nil_eq_nil_iff (c : Bool) (k : String) :
    (if c = true then ([] : List String) else [k]) = [] ↔ c = true := by
  cases c <;> simp

theorem invalidConfigKeys_eq_nil_iff (r : SfdxFalconRecipeJson) :
    invalidConfigKeys r = [] ↔
      (truthyStr r.recipeName = true ∧ truthyStr r.description = true ∧
       truthyStr r.recipeType = true ∧ truthyStr r.recipeVersion = true ∧
       truthyStr r.schemaVersion = true ∧ r.options = true ∧
       truthyObj r.recipeStepGroups = true ∧ truthyObj r.handlers = true) := by
  simp only [invalidConfigKeys, List.append_eq_nil, if_nil_eq_nil_iff]
  tauto

/-- C5: top-level recipe validation checks all eight required keys in one
pass — it succeeds iff all eight are truthy — and when one or more are
missing or falsy both validateTopLevelProperties and read fail with a
single ERROR_INVALID_RECIPE error naming every collected key at once (read
fails before any engine-specific validation runs). -/
theorem c5_top_level_keys_one_pass (r : SfdxFalconRecipeJson)
    (engineValidation : SfdxFalconRecipeJson → Except String Unit) :
    (SfdxFalconRecipe.validateTopLevelProperties r = .ok () ↔
      (truthyStr r.recipeName = true ∧ truthyStr r.description = true ∧
       truthyStr r.recipeType = true ∧ truthyStr r.recipeVersion = true ∧
       truthyStr r.schemaVersion = true ∧ r.options = true ∧
       truthyObj r.recipeStepGroups = true ∧ truthyObj r.handlers = true)) ∧
    (invalidConfigKeys r ≠ [] →
      SfdxFalconRecipe.read engineValidation r =
        .error ("ERROR_INVALID_RECIPE: The selected recipe has missing/invalid settings ("
                ++ String.intercalate "," (invalidConfigKeys r) ++ ").")) := by
  constructor
  · rw [← invalidConfigKeys_eq_nil_iff]
    unfold SfdxFalconRecipe.validateTopLevelProperties
    by_cases h : invalidConfigKeys r = []
    · simp [h]
    · have hlen : 0 < (invalidConfigKeys r).length := List.length_pos.mpr h
      constructor
      · intro hok
        rw [if_pos hlen] at hok
        cases hok
      · intro hk
        exact absurd hk h
  · intro hne
    have hlen : 0 < (invalidConfigKeys r).length := List.length_pos.mpr hne
    have hv : SfdxFalconRecipe.validateTopLevelProperties r =
        .error ("ERROR_INVALID_RECIPE: The selected recipe has missing/invalid settings ("
                ++ String.intercalate "," (invalidConfigKeys r) ++ ").") := by
      unfold SfdxFalconRecipe.validateTopLevelProperties
      rw [if_pos hlen]
    unfold SfdxFalconRecipe.read SfdxFalconRecipe.validate
    rw [hv]

/-- C5 witness: the concrete recipe missing both options and handlers fails
read with one InvalidRecipe error listing options and handlers together. -/
theorem c5_witness :
    invalidConfigKeys recipeMissingOptionsAndHandlers ≠ [] ∧
    SfdxFalconRecipe.read acceptAllEngineValidation recipeMissingOptionsAndHandlers =
      .error ("ERROR_INVALID_RECIPE: The selected recipe has missing/invalid "
              ++ "settings (options,handlers).") :=
  ⟨by decide,
   (c5_top_level_keys_one_pass recipeMissingOptionsAndHandlers
      acceptAllEngineValidation).2 (by decide)⟩

/-- C6: code bug in `validateEngine` — with the action registry absent
(never assigned, hence not a Map) the validator raises no error and marks
the engine context initialized, because its first guard
`actionExecutorMap instanceof Map && size < 1` only fires when the map
exists; an empty Map, by contrast, is correctly rejected.  The claim (which
matches the code comment and the spec) requires an error in both cases. -/
theorem c6_absent_registry_passes_validateEngine :
    AppxRecipeEngine.validateEngine absentRegistryState =
      .ok { absentRegistryState with
              engineContext :=
                { absentRegistryState.engineContext with initialized := true } } ∧
    AppxRecipeEngine.validateEngine
        { absentRegistryState with actionExecutorMap := some [] } =
      .error "ERROR_INVALID_ENGINE: actionExecutorMap is invalid or empty." :=
  ⟨rfl, rfl⟩

/-- C7: executeStep on a step whose action name is not a key of the action
registry fails with an UnknownAction error whose message names that action;
the settlement is this fixed error, so no action executor is invoked for
the step. -/
theorem c7_unknown_action (actionExecutorMap : List (String × AppxEngineAction))
    (recipeType : String) (recipeStep : AppxEngineStep)
    (h : actionMapGet actionExecutorMap recipeStep.action = none) :
    AppxRecipeEngine.executeStep actionExecutorMap recipeType recipeStep =
      .error (.err ⟨"ERROR_UNKNOWN_ACTION: " ++ recipeStep.action
        ++ " is not recognized by the " ++ recipeType ++ " eninge"⟩) := by
  unfold AppxRecipeEngine.executeStep
  rw [h]

/-- C7 witness: an empty registry and a step with action bogus. -/
theorem c7_witness :
    actionMapGet [] "bogus" = none ∧
    AppxRecipeEngine.executeStep [] "appx:demo-recipe" ⟨"s1", "d", "bogus", ""⟩ =
      .error (.err ⟨"ERROR_UNKNOWN_ACTION: bogus is not recognized by the "
                    ++ "appx:demo-recipe eninge"⟩) :=
  ⟨rfl, c7_unknown_action [] "appx:demo-recipe" ⟨"s1", "d", "bogus", ""⟩ rfl⟩

/-- C8: execute before a successful compile always fails with
RecipeNotCompiled and runs no step — SfdxFalconRecipe.execute throws when
the compiled flag is not true and AppxRecipeEngine.execute throws when no
task plan has been compiled, in both cases for every possible delegated
engine behaviour, so no pre-execution work or step execution can occur. -/
theorem c8_execute_requires_compile (compiled : Bool)
    (engineRun : Unit → List String)
    (listrTasks : Option (List AppxEngineStepGroup))
    (executeEngine : List AppxEngineStepGroup → List String)
    (hc : compiled ≠ true) (hl : listrTasks = none) :
    SfdxFalconRecipe.execute compiled engineRun =
      .error ("ERROR_RECIPE_NOT_COMPILED: The compile() method must be called "
              ++ "before you can execute this recipe") ∧
    AppxRecipeEngine.execute listrTasks executeEngine =
      .error ("ERROR_RECIPE_NOT_COMPILED: AppxRecipeEngine.execute() called "
              ++ "before compiling a Recipe") := by
  constructor
  · unfold SfdxFalconRecipe.execute
    rw [if_pos hc]
  · rw [hl]
    rfl

/-- C8 witness: an uncompiled recipe and an engine without a plan, each with
an engine behaviour that would run a step if consulted. -/
theorem c8_witness :
    SfdxFalconRecipe.execute false (fun _ => ["step-one"]) =
      .error ("ERROR_RECIPE_NOT_COMPILED: The compile() method must be called "
              ++ "before you can execute this recipe") ∧
    AppxRecipeEngine.execute none (fun _ => ["step-one"]) =
      .error ("ERROR_RECIPE_NOT_COMPILED: AppxRecipeEngine.execute() called "
              ++ "before compiling a Recipe") :=
  c8_execute_requires_compile false (fun _ => ["step-one"]) none
    (fun _ => ["step-one"]) (by decide) rfl

/-! ## Lemmas about target org validation -/

theorem strCheckFails_eq_false_iff (o : Option String) :
    strCheckFails o = false ↔ ∃ s, o = some s ∧ s ≠ "" := by
  cases o with
  | none => simp [strCheckFails]
  | some s => simp [strCheckFails]

set_option maxRecDepth 4000 in
/-- C9: recipe-read-time target org validation accepts an entry exactly when
orgName, alias and description are non-empty strings, isScratchOrg is a
boolean, scratchDefJson is a non-empty string whenever isScratchOrg is
true, and orgReqsJson is a non-empty string whenever isScratchOrg is false;
in every other case it raises an error whose message is an
ERROR_INVALID_RECIPE error. -/
theorem c9_validateTargetOrg (targetOrg : TargetOrg) :
    ((AppxRecipeEngine.validateTargetOrg targetOrg).isOk = true ↔
      ((∃ s, targetOrg.orgName = some s ∧ s ≠ "") ∧
       (∃ s, targetOrg.aliasName = some s ∧ s ≠ "") ∧
       (∃ s, targetOrg.description = some s ∧ s ≠ "") ∧
       (∃ b, targetOrg.isScratchOrg = some b) ∧
       (targetOrg.isScratchOrg = some true →
         ∃ s, targetOrg.scratchDefJson = some s ∧ s ≠ "") ∧
       (targetOrg.isScratchOrg = some false →
         ∃ s, targetOrg.orgReqsJson = some s ∧ s ≠ ""))) ∧
    (∀ m, AppxRecipeEngine.validateTargetOrg targetOrg = .error m →
      m.take 20 = "ERROR_INVALID_RECIPE") := by
  constructor
  · simp only [← strCheckFails_eq_false_iff, ← Option.isSome_iff_exists]
    unfold AppxRecipeEngine.validateTargetOrg
    split_ifs with h1 h2 h3 h4 h5 h6 <;>
      simp_all [Except.isOk, Except.toBool, Option.isNone_iff_eq_none,
                Bool.not_eq_true, Option.isSome_iff_ne_none]
  · intro m hm
    unfold AppxRecipeEngine.validateTargetOrg at hm
    split_ifs at hm <;> cases hm <;> decide

set_option maxRecDepth 4000 in
/-- C9 witness: the all-missing target org is rejected with an
ERROR_INVALID_RECIPE error, while the well-formed sample target org is
accepted. -/
theorem c9_witness :
    AppxRecipeEngine.validateTargetOrg emptyTargetOrg =
      .error ("ERROR_INVALID_RECIPE: A string value must be provided for the "
              ++ "orgName key in each targetOrg in your recipe.") ∧
    ("ERROR_INVALID_RECIPE: A string value must be provided for the "
      ++ "orgName key in each targetOrg in your recipe.").take 20 =
      "ERROR_INVALID_RECIPE" ∧
    (AppxRecipeEngine.validateTargetOrg sampleTargetOrg).isOk = true :=
  ⟨rfl,
   (c9_validateTargetOrg emptyTargetOrg).2
     ("ERROR_INVALID_RECIPE: A string value must be provided for the "
      ++ "orgName key in each targetOrg in your recipe.") rfl,
   (c9_validateTargetOrg sampleTargetOrg).1.mpr
     ⟨⟨"Sample Org", rfl, by decide⟩,
      ⟨"sample-org", rfl, by decide⟩,
      ⟨"A sample demo org", rfl, by decide⟩,
      ⟨true, rfl⟩,
      fun _ => ⟨"scratch-def.json", rfl, by decide⟩,
      fun h => absurd h (by decide)⟩⟩

/-! ## Lemmas about terminal transitions -/

theorem error_transition_nonterminal (r : SfdxFalconResult)
    (e : Option FalconError) (h : r.status.isTerminal = false) :
    SfdxFalconResult.error r e = .ok ((r.setStatus .ERROR).setErrObj e) := by
  unfold SfdxFalconResult.error
  rw [if_neg (by simp [h])]

theorem success_transition_nonterminal (r : SfdxFalconResult)
    (d : ResultDetail) (h : r.status.isTerminal = false) :
    SfdxFalconResult.success r d = .ok ((r.setStatus .SUCCESS).setDetail d) := by
  unfold SfdxFalconResult.success
  rw [if_neg (by simp [h])]

/-- C10: the COMMAND result is constructed with bubbleError and
bubbleFailure both false, so adding any child — in ERROR or FAILURE status
or otherwise — never implicitly finalizes it (addChild records the child
and leaves the status untouched); the command layer finalizes it explicitly
instead — onError wraps the rejected value into a result, sets the command
exit code detail to 1 and marks the COMMAND result ERROR itself, while
onSuccess marks it SUCCESS. -/
theorem c10_command_bubbling_policy (commandName : String)
    (commandType : SfdxFalconCommandType) (enabledDebuggers : List String)
    (cs : SfdxFalconCommandState)
    (hcs : cs = sfdxFalconCommandInit commandName commandType enabledDebuggers)
    (rejectedValue : Thrown) (settledResult : SfdxFalconResult) :
    cs.falconCommandResult.bubbleError = false ∧
    cs.falconCommandResult.bubbleFailure = false ∧
    (∀ child, cs.falconCommandResult.addChild child =
        .ok (cs.falconCommandResult.appendChild child) ∧
      (cs.falconCommandResult.appendChild child).status =
        cs.falconCommandResult.status) ∧
    (∃ cs', SfdxFalconCommand.onError cs rejectedValue = .ok cs' ∧
      cs'.falconCommandResultDetail.commandExitCode = 1 ∧
      cs'.falconCommandResult.status = .ERROR ∧
      cs'.falconCommandResult.errObj =
        (SfdxFalconResult.wrapRejectedPromise rejectedValue
          "Promise Returned (REJECTED)" .UNKNOWN).errObj) ∧
    (∃ cs', SfdxFalconCommand.onSuccess cs settledResult = .ok cs' ∧
      cs'.falconCommandResult.status = .SUCCESS) := by
  subst hcs
  refine ⟨by simp [sfdxFalconCommandInit], by simp [sfdxFalconCommandInit],
          ?_, ?_, ?_⟩
  · intro child
    exact ⟨addChild_no_bubble _ child (by simp [sfdxFalconCommandInit])
            (by simp [sfdxFalconCommandInit]), by simp⟩
  · unfold SfdxFalconCommand.onError
    dsimp only
    rw [addChild_no_bubble _ _ (by simp [sfdxFalconCommandInit])
          (by simp [sfdxFalconCommandInit])]
    dsimp only
    rw [error_transition_nonterminal _ _ (by rfl)]
    exact ⟨_, rfl, rfl, by simp, by simp⟩
  · unfold SfdxFalconCommand.onSuccess
    rw [addChild_no_bubble _ _ (by simp [sfdxFalconCommandInit])
          (by simp [sfdxFalconCommandInit])]
    dsimp only
    rw [success_transition_nonterminal _ _ (by rfl)]
    exact ⟨_, rfl, by simp⟩

/-- C10 witness: the concrete command state built by sfdxFalconCommandInit
for the clone command has the no-bubbling policy, records children without
finalizing, and is finalized explicitly by onError and onSuccess. -/
theorem c10_witness :
    (sfdxFalconCommandInit "falcon:demo:clone" .APPX_PACKAGE
        []).falconCommandResult.bubbleError = false ∧
    (sfdxFalconCommandInit "falcon:demo:clone" .APPX_PACKAGE
        []).falconCommandResult.bubbleFailure = false ∧
    (∀ child, (sfdxFalconCommandInit "falcon:demo:clone" .APPX_PACKAGE
          []).falconCommandResult.addChild child =
        .ok ((sfdxFalconCommandInit "falcon:demo:clone" .APPX_PACKAGE
          []).falconCommandResult.appendChild child) ∧
      ((sfdxFalconCommandInit "falcon:demo:clone" .APPX_PACKAGE
          []).falconCommandResult.appendChild child).status =
        (sfdxFalconCommandInit "falcon:demo:clone" .APPX_PACKAGE
          []).falconCommandResult.status) ∧
    (∃ cs', SfdxFalconCommand.onError
        (sfdxFalconCommandInit "falcon:demo:clone" .APPX_PACKAGE [])
        (.err ⟨"boom"⟩) = .ok cs' ∧
      cs'.falconCommandResultDetail.commandExitCode = 1 ∧
      cs'.falconCommandResult.status = .ERROR ∧
      cs'.falconCommandResult.errObj =
        (SfdxFalconResult.wrapRejectedPromise (.err ⟨"boom"⟩)
          "Promise Returned (REJECTED)" .UNKNOWN).errObj) ∧
    (∃ cs', SfdxFalconCommand.onSuccess
        (sfdxFalconCommandInit "falcon:demo:clone" .APPX_PACKAGE [])
        (SfdxFalconResult.create "demo-recipe" .RECIPE true true true) =
        .ok cs' ∧
      cs'.falconCommandResult.status = .SUCCESS) :=
  c10_command_bubbling_policy "falcon:demo:clone" .APPX_PACKAGE []
    (sfdxFalconCommandInit "falcon:demo:clone" .APPX_PACKAGE []) rfl
    (.err ⟨"boom"⟩) (SfdxFalconResult.create "demo-recipe" .RECIPE true true true)
